import Mathlib

/-!
Shallow embedding of the cart-pricing engine of a retail point-of-sale web
application.  The definitions below translate the reducer `cartReducer` and
its helpers `calculateItemSubtotal` and `calculateTotals` from
`src/pos_frontend/src/App.jsx`, and the transaction-payload construction of
`createTransaction` from `src/pos_frontend/src/services/api.js`.

Modelling conventions: JavaScript numbers are modelled as rationals;
product identifiers as naturals; quantities as integers (SetQuantity may
receive non-positive values).  The JS idiom `x || 0` applied to a numeric
field that is always present is the identity on its value and is modelled
as such; where a field can be absent (the discount fields of a freshly
scanned product) the absent read `undefined || 0` is modelled as the
value 0.  Absent JSON keys are modelled with `Option` (`none` = key
omitted).
-/

namespace WebPOS

/-- One line of the cart: the JS cart-item object, with the two discount
fields and the stored derived `subtotal`. -/
@[ext]
structure CartItem where
  id : Nat
  sku : String
  name : String
  unit_price : ℚ
  quantity : Int
  discount_percentage : ℚ
  discount_amount : ℚ
  subtotal : ℚ
deriving DecidableEq, Repr

/-- The reducer state from `App.jsx` (`useReducer` initial value and the
shape every case returns): the line collection, the five derived totals and
the two order-level discount fields. -/
@[ext]
structure CartState where
  items : List CartItem
  subtotal : ℚ
  subtotalBeforeDiscount : ℚ
  totalItemDiscounts : ℚ
  transactionDiscount : ℚ
  totalDiscount : ℚ
  transactionDiscountPercentage : ℚ
  transactionDiscountAmount : ℚ
deriving DecidableEq, Repr

/-- JS `calculateItemSubtotal(item)`: the per-line subtotal, clamped at 0. -/
def calculateItemSubtotal (item : CartItem) : ℚ :=
  let baseSubtotal : ℚ := (item.quantity : ℚ) * item.unit_price
  let percentageDiscount := baseSubtotal * (item.discount_percentage / 100)
  let itemDiscount := percentageDiscount + item.discount_amount
  max 0 (baseSubtotal - itemDiscount)

/-- The record returned by JS `calculateTotals`. -/
structure Totals where
  subtotalBeforeDiscount : ℚ
  totalItemDiscounts : ℚ
  transactionDiscount : ℚ
  totalDiscount : ℚ
  subtotal : ℚ
deriving DecidableEq, Repr

/-- JS `calculateTotals(items, transactionDiscountPct, transactionDiscountAmt)`:
the two `reduce` folds, the order-level discount applied to the
post-line-discount subtotal, and the net subtotal floored at 0.01. -/
def calculateTotals (items : List CartItem)
    (transactionDiscountPct : ℚ) (transactionDiscountAmt : ℚ) : Totals :=
  let subtotalBeforeDiscount :=
    items.foldl (fun sum item => sum + (item.quantity : ℚ) * item.unit_price) 0
  let totalItemDiscounts :=
    items.foldl (fun sum item =>
      sum + (item.quantity : ℚ) * item.unit_price * (item.discount_percentage / 100)
          + item.discount_amount) 0
  let subtotalAfterItemDiscounts := subtotalBeforeDiscount - totalItemDiscounts
  let transactionPercentageDiscount :=
    subtotalAfterItemDiscounts * (transactionDiscountPct / 100)
  let totalDiscount :=
    totalItemDiscounts + transactionPercentageDiscount + transactionDiscountAmt
  let subtotal :=
    max (1/100 : ℚ)
      (subtotalAfterItemDiscounts - transactionPercentageDiscount - transactionDiscountAmt)
  { subtotalBeforeDiscount := subtotalBeforeDiscount
    totalItemDiscounts := totalItemDiscounts
    transactionDiscount := transactionPercentageDiscount + transactionDiscountAmt
    totalDiscount := totalDiscount
    subtotal := subtotal }

/-- The product object dispatched with `ADD_ITEM` (built in `handleSkuSearch`):
id, sku, name, unit price and the quantity to add. -/
structure ProductPayload where
  id : Nat
  sku : String
  name : String
  unit_price : ℚ
  quantity : Int
deriving DecidableEq, Repr

/-- The `ADD_ITEM` payload viewed as a cart item: its discount fields are
absent in JS and read as 0 through `|| 0`; the stored subtotal starts at 0
and is immediately overwritten by the reducer. -/
def payloadItem (p : ProductPayload) : CartItem :=
  { id := p.id, sku := p.sku, name := p.name, unit_price := p.unit_price
    quantity := p.quantity, discount_percentage := 0, discount_amount := 0
    subtotal := 0 }

/-- The action objects dispatched to `cartReducer`. -/
inductive Action where
  | addItem (payload : ProductPayload)
  | updateQuantity (id : Nat) (quantity : Int)
  | updateItemDiscount (id : Nat) (discount_percentage : ℚ) (discount_amount : ℚ)
  | updateTransactionDiscount (discount_percentage : ℚ) (discount_amount : ℚ)
  | removeItem (id : Nat)
  | clearCart
deriving DecidableEq, Repr

/-- The spread `{ ...state, items: newItems, ...totals }` used by every
totals-recomputing case of the reducer. -/
def applyTotals (state : CartState) (items : List CartItem) (t : Totals) : CartState :=
  { state with
    items := items
    subtotalBeforeDiscount := t.subtotalBeforeDiscount
    totalItemDiscounts := t.totalItemDiscounts
    transactionDiscount := t.transactionDiscount
    totalDiscount := t.totalDiscount
    subtotal := t.subtotal }

/-- The `useReducer` initial cart value from `App.jsx` (also the object
literal returned by the `CLEAR_CART` case): empty items, every numeric
field 0. -/
def initialCart : CartState :=
  { items := [], subtotal := 0, subtotalBeforeDiscount := 0
    totalItemDiscounts := 0, transactionDiscount := 0, totalDiscount := 0
    transactionDiscountPercentage := 0, transactionDiscountAmount := 0 }

/-- JS `cartReducer(state, action)`: the six cases of the switch. -/
def cartReducer (state : CartState) (action : Action) : CartState :=
  match action with
  | .addItem payload =>
    if state.items.any (fun item => item.id == payload.id) then
      let updatedItems := state.items.map (fun item =>
        if item.id == payload.id then
          let bumped := { item with quantity := item.quantity + payload.quantity }
          { bumped with subtotal := calculateItemSubtotal bumped }
        else item)
      applyTotals state updatedItems
        (calculateTotals updatedItems state.transactionDiscountPercentage
          state.transactionDiscountAmount)
    else
      let base := payloadItem payload
      let newItem := { base with subtotal := calculateItemSubtotal base }
      let newItems := state.items ++ [newItem]
      applyTotals state newItems
        (calculateTotals newItems state.transactionDiscountPercentage
          state.transactionDiscountAmount)
  | .updateQuantity id quantity =>
    let updatedItems := (state.items.map (fun item =>
      if item.id == id then
        { item with
          quantity := quantity,
          subtotal := calculateItemSubtotal { item with quantity := quantity } }
      else item)).filter (fun item => decide (0 < item.quantity))
    applyTotals state updatedItems
      (calculateTotals updatedItems state.transactionDiscountPercentage
        state.transactionDiscountAmount)
  | .updateItemDiscount id pct amt =>
    let itemsWithDiscount := state.items.map (fun item =>
      if item.id == id then
        { item with
          discount_percentage := pct,
          discount_amount := amt,
          subtotal := calculateItemSubtotal
            { item with discount_percentage := pct, discount_amount := amt } }
      else item)
    applyTotals state itemsWithDiscount
      (calculateTotals itemsWithDiscount state.transactionDiscountPercentage
        state.transactionDiscountAmount)
  | .updateTransactionDiscount pct amt =>
    { applyTotals state state.items (calculateTotals state.items pct amt) with
      transactionDiscountPercentage := pct
      transactionDiscountAmount := amt }
  | .removeItem id =>
    let filteredItems := state.items.filter (fun item => item.id != id)
    applyTotals state filteredItems
      (calculateTotals filteredItems state.transactionDiscountPercentage
        state.transactionDiscountAmount)
  | .clearCart => initialCart

/-- Carts reachable from the initial reducer state through engine
operations. -/
inductive Reachable : CartState → Prop where
  | base : Reachable initialCart
  | step {c : CartState} (a : Action) : Reachable c → Reachable (cartReducer c a)

/-- Per-line gross: `quantity * unitPrice`. -/
def lineGross (i : CartItem) : ℚ := (i.quantity : ℚ) * i.unit_price

/-- Per-line unclamped discount:
`grossLine * (lineDiscountPercent/100) + lineDiscountAmount`. -/
def lineDiscount (i : CartItem) : ℚ :=
  lineGross i * (i.discount_percentage / 100) + i.discount_amount

/-- Gross subtotal: sum of per-line gross over all lines. -/
def grossSubtotalOf (items : List CartItem) : ℚ := (items.map lineGross).sum

/-- Line-discount total: sum of the unclamped per-line discounts. -/
def lineDiscountTotalOf (items : List CartItem) : ℚ := (items.map lineDiscount).sum

/-- The stored derived totals of a cart state agree with a fresh
`calculateTotals` recompute from its items and order-discount fields. -/
abbrev TotalsInSync (c : CartState) : Prop :=
  c.subtotalBeforeDiscount =
    (calculateTotals c.items c.transactionDiscountPercentage
      c.transactionDiscountAmount).subtotalBeforeDiscount ∧
  c.totalItemDiscounts =
    (calculateTotals c.items c.transactionDiscountPercentage
      c.transactionDiscountAmount).totalItemDiscounts ∧
  c.transactionDiscount =
    (calculateTotals c.items c.transactionDiscountPercentage
      c.transactionDiscountAmount).transactionDiscount ∧
  c.totalDiscount =
    (calculateTotals c.items c.transactionDiscountPercentage
      c.transactionDiscountAmount).totalDiscount ∧
  c.subtotal =
    (calculateTotals c.items c.transactionDiscountPercentage
      c.transactionDiscountAmount).subtotal

/-- One item entry of the payload built by JS `createTransaction`:
`product_id` and `quantity` always present, the two discount keys present
(`some`) exactly when the code adds them. -/
structure TxItemPayload where
  product_id : Nat
  quantity : Int
  discount_percentage : Option ℚ
  discount_amount : Option ℚ
deriving DecidableEq, Repr

/-- The transaction payload object JS `createTransaction` serializes and
posts; optional keys are `Option`-valued. -/
structure TxPayload where
  items : List TxItemPayload
  payment_method : String
  discount_percentage : Option ℚ
  discount_amount : Option ℚ
  cash_received : Option ℚ
  change_amount : Option ℚ
deriving DecidableEq, Repr

/-- JS `Math.round(x * 100) / 100` (rounding half toward positive
infinity). -/
def round2 (x : ℚ) : ℚ := (Int.floor (x * 100 + 1/2) : ℚ) / 100

/-- The per-item payload of `createTransaction`: discount keys are included
only when the value is truthy and strictly positive. -/
def buildItemPayload (item : CartItem) : TxItemPayload :=
  { product_id := item.id
    quantity := item.quantity
    discount_percentage :=
      if 0 < item.discount_percentage then some item.discount_percentage else none
    discount_amount :=
      if 0 < item.discount_amount then some item.discount_amount else none }

/-- JS `createTransaction(items, paymentMethod, cashReceived, changeAmount,
discountPercentage, discountAmount)`: the payload object it builds before
posting.  Cash fields are added (rounded to 2 decimals) only for `"Cash"`
payments with a non-null `cashReceived`; discount keys only when strictly
positive, and without rounding. -/
def createTransactionPayload (items : List CartItem) (paymentMethod : String)
    (cashReceived : Option ℚ) (changeAmount : Option ℚ)
    (discountPercentage : ℚ) (discountAmount : ℚ) : TxPayload :=
  { items := items.map buildItemPayload
    payment_method := paymentMethod
    discount_percentage :=
      if 0 < discountPercentage then some discountPercentage else none
    discount_amount :=
      if 0 < discountAmount then some discountAmount else none
    cash_received :=
      if paymentMethod = "Cash" then cashReceived.map round2 else none
    change_amount :=
      if paymentMethod = "Cash" ∧ cashReceived.isSome then changeAmount.map round2 else none }

/-- A concrete scanned product used by the witnesses below. -/
def sampleProduct : ProductPayload :=
  { id := 1, sku := "A1", name := "Apple", unit_price := 10, quantity := 2 }

/-- The reachable one-line cart obtained by scanning `sampleProduct`. -/
def sampleCart : CartState := cartReducer initialCart (Action.addItem sampleProduct)

/-- A reachable cart whose single line carries a fixed discount amount (30)
larger than its gross (20), so the per-line clamp at 0 is active. -/
def overCart : CartState := cartReducer sampleCart (Action.updateItemDiscount 1 0 30)

/-- A cart item carrying a half-cent discount amount, used to exhibit the
absence of payload rounding. -/
def halfCentItem : CartItem :=
  { id := 9, sku := "C3", name := "Gum", unit_price := 1, quantity := 1
    discount_percentage := 0, discount_amount := 1/200, subtotal := 0 }

/-! Basic lemmas about the two `reduce` folds of `calculateTotals`. -/

lemma foldl_gross (l : List CartItem) (a : ℚ) :
    l.foldl (fun sum item => sum + (item.quantity : ℚ) * item.unit_price) a
      = a + grossSubtotalOf l := by
  induction l generalizing a with
  | nil => simp [grossSubtotalOf]
  | cons x xs ih =>
    simp only [List.foldl_cons, ih, grossSubtotalOf, List.map_cons, List.sum_cons, lineGross]
    ring

lemma foldl_disc (l : List CartItem) (a : ℚ) :
    l.foldl (fun sum item =>
        sum + (item.quantity : ℚ) * item.unit_price * (item.discount_percentage / 100)
            + item.discount_amount) a
      = a + lineDiscountTotalOf l := by
  induction l generalizing a with
  | nil => simp [lineDiscountTotalOf]
  | cons x xs ih =>
    simp only [List.foldl_cons, ih, lineDiscountTotalOf, List.map_cons, List.sum_cons,
      lineDiscount, lineGross]
    ring

lemma calcTotals_subtotalBeforeDiscount (l : List CartItem) (p a : ℚ) :
    (calculateTotals l p a).subtotalBeforeDiscount = grossSubtotalOf l := by
  simp [calculateTotals, foldl_gross]

lemma calcTotals_totalItemDiscounts (l : List CartItem) (p a : ℚ) :
    (calculateTotals l p a).totalItemDiscounts = lineDiscountTotalOf l := by
  simp [calculateTotals, foldl_disc]

lemma calcTotals_transactionDiscount (l : List CartItem) (p a : ℚ) :
    (calculateTotals l p a).transactionDiscount =
      (grossSubtotalOf l - lineDiscountTotalOf l) * (p / 100) + a := by
  simp [calculateTotals, foldl_gross, foldl_disc]

lemma calcTotals_totalDiscount (l : List CartItem) (p a : ℚ) :
    (calculateTotals l p a).totalDiscount =
      lineDiscountTotalOf l + (grossSubtotalOf l - lineDiscountTotalOf l) * (p / 100) + a := by
  simp [calculateTotals, foldl_gross, foldl_disc]

lemma calcTotals_subtotal (l : List CartItem) (p a : ℚ) :
    (calculateTotals l p a).subtotal =
      max (1/100)
        (grossSubtotalOf l - lineDiscountTotalOf l
          - (grossSubtotalOf l - lineDiscountTotalOf l) * (p / 100) - a) := by
  simp [calculateTotals, foldl_gross, foldl_disc]

lemma calcTotals_subtotal_ge (l : List CartItem) (p a : ℚ) :
    1/100 ≤ (calculateTotals l p a).subtotal := by
  rw [calcTotals_subtotal]
  exact le_max_left _ _

/-- C1: for every cart recompute, the order-level discount is computed on the
post-line-discount subtotal, not the gross — `orderDiscountTotal =
(grossSubtotal - lineDiscountTotal) * (orderDiscountPercent/100) +
orderDiscountAmount` — and `netSubtotal = max(0.01,
subtotalAfterLineDiscounts - orderDiscountTotal)`, for all lines and
discount fields. -/
theorem orderDiscount_on_post_line_discount_subtotal
    (items : List CartItem) (pct amt : ℚ) :
    (calculateTotals items pct amt).transactionDiscount =
      (grossSubtotalOf items - lineDiscountTotalOf items) * (pct / 100) + amt ∧
    (calculateTotals items pct amt).subtotal =
      max (1/100)
        ((grossSubtotalOf items - lineDiscountTotalOf items) -
          (calculateTotals items pct amt).transactionDiscount) := by
  refine ⟨calcTotals_transactionDiscount items pct amt, ?_⟩
  rw [calcTotals_subtotal, calcTotals_transactionDiscount]
  congr 1
  ring

/-! Every reducer case except `CLEAR_CART` stores a fresh `calculateTotals`
recompute next to the items it returns. -/

lemma totalsSync_applyTotals (c : CartState) (l : List CartItem) :
    TotalsInSync (applyTotals c l
      (calculateTotals l c.transactionDiscountPercentage c.transactionDiscountAmount)) :=
  ⟨rfl, rfl, rfl, rfl, rfl⟩

lemma totalsSync_step (c : CartState) (a : Action) (h : a ≠ Action.clearCart) :
    TotalsInSync (cartReducer c a) := by
  cases a with
  | addItem p =>
    simp only [cartReducer]
    split
    · exact totalsSync_applyTotals _ _
    · exact totalsSync_applyTotals _ _
  | updateQuantity id q => exact totalsSync_applyTotals _ _
  | updateItemDiscount id p a => exact totalsSync_applyTotals _ _
  | updateTransactionDiscount p a => exact ⟨rfl, rfl, rfl, rfl, rfl⟩
  | removeItem id => exact totalsSync_applyTotals _ _
  | clearCart => exact absurd rfl h

/-- C2 counterexample: the cart produced by `Clear` is reachable and stores
`netSubtotal = 0`, strictly below the 0.01 floor. -/
theorem clear_cart_netSubtotal_below_floor :
    Reachable (cartReducer initialCart Action.clearCart) ∧
    (cartReducer initialCart Action.clearCart).subtotal < 1/100 :=
  ⟨Reachable.step Action.clearCart Reachable.base, by norm_num [cartReducer, initialCart]⟩

/-- C2 (amended): after every engine operation other than `Clear`, the stored
`netSubtotal` is at least 0.01, for every input cart and regardless of line
and order discount magnitudes; `Clear` instead resets the stored
`netSubtotal` to 0. -/
theorem netSubtotal_floor_after_nonClear_op (c : CartState) (a : Action)
    (h : a ≠ Action.clearCart) : 1/100 ≤ (cartReducer c a).subtotal := by
  have hs := totalsSync_step c a h
  rw [hs.2.2.2.2]
  exact calcTotals_subtotal_ge _ _ _

/-- Witness for the amended C2 at a concrete input. -/
theorem netSubtotal_floor_after_nonClear_op_witness :
    (Action.removeItem 1 ≠ Action.clearCart) ∧
    1/100 ≤ (cartReducer initialCart (Action.removeItem 1)).subtotal :=
  ⟨by decide, netSubtotal_floor_after_nonClear_op initialCart (Action.removeItem 1) (by decide)⟩

/-- C4 counterexample: two reachable carts with equal lines and equal order
discount fields whose stored `netSubtotal` differ (0 after `Clear` versus
0.01 after `RemoveItem` recomputes on the initial cart). -/
theorem derived_totals_not_determined_by_lines_and_discounts :
    Reachable (cartReducer initialCart Action.clearCart) ∧
    Reachable (cartReducer initialCart (Action.removeItem 1)) ∧
    (cartReducer initialCart Action.clearCart).items =
      (cartReducer initialCart (Action.removeItem 1)).items ∧
    (cartReducer initialCart Action.clearCart).transactionDiscountPercentage =
      (cartReducer initialCart (Action.removeItem 1)).transactionDiscountPercentage ∧
    (cartReducer initialCart Action.clearCart).transactionDiscountAmount =
      (cartReducer initialCart (Action.removeItem 1)).transactionDiscountAmount ∧
    (cartReducer initialCart Action.clearCart).subtotal ≠
      (cartReducer initialCart (Action.removeItem 1)).subtotal :=
  ⟨Reachable.step Action.clearCart Reachable.base,
   Reachable.step (Action.removeItem 1) Reachable.base,
   by simp [cartReducer, initialCart, applyTotals],
   by simp [cartReducer, initialCart, applyTotals],
   by simp [cartReducer, initialCart, applyTotals],
   by simp [cartReducer, initialCart, applyTotals, calculateTotals]⟩

/-- C4 (amended): after every operation other than `Clear`, the stored
derived totals equal the recompute function applied to the resulting lines
and order-discount fields, with no staleness and no other inputs; `Clear`
instead stores all-zero totals (netSubtotal 0 rather than the recomputed
0.01). -/
theorem totals_recomputed_after_nonClear_op (c : CartState) (a : Action)
    (h : a ≠ Action.clearCart) : TotalsInSync (cartReducer c a) :=
  totalsSync_step c a h

/-- Witness for the amended C4 at a concrete input. -/
theorem totals_recomputed_after_nonClear_op_witness :
    (Action.updateQuantity 1 3 ≠ Action.clearCart) ∧
    TotalsInSync (cartReducer initialCart (Action.updateQuantity 1 3)) :=
  ⟨by decide,
   totals_recomputed_after_nonClear_op initialCart (Action.updateQuantity 1 3) (by decide)⟩

/-! Per-line invariant: every stored line subtotal is the value of
`calculateItemSubtotal` on the line's own fields. -/

lemma calcIS_set_subtotal (i : CartItem) (s : ℚ) :
    calculateItemSubtotal { i with subtotal := s } = calculateItemSubtotal i := rfl

lemma applyTotals_items (c : CartState) (l : List CartItem) (t : Totals) :
    (applyTotals c l t).items = l := rfl

lemma applyTotals_pct (c : CartState) (l : List CartItem) (t : Totals) :
    (applyTotals c l t).transactionDiscountPercentage
      = c.transactionDiscountPercentage := rfl

lemma applyTotals_amt (c : CartState) (l : List CartItem) (t : Totals) :
    (applyTotals c l t).transactionDiscountAmount
      = c.transactionDiscountAmount := rfl

lemma items_step_subtotal (c : CartState) (a : Action)
    (ih : ∀ i ∈ c.items, i.subtotal = calculateItemSubtotal i) :
    ∀ i ∈ (cartReducer c a).items, i.subtotal = calculateItemSubtotal i := by
  cases a with
  | addItem p =>
    simp only [cartReducer]
    split
    · intro i hi
      rw [applyTotals_items] at hi
      rcases List.mem_map.1 hi with ⟨j, hj, rfl⟩
      by_cases hid : (j.id == p.id) = true
      · rw [if_pos hid]; exact rfl
      · rw [if_neg hid]; exact ih j hj
    · intro i hi
      rw [applyTotals_items] at hi
      rcases List.mem_append.1 hi with hj | hj
      · exact ih i hj
      · rcases List.mem_singleton.1 hj with rfl; rfl
  | updateQuantity id q =>
    intro i hi
    rw [cartReducer, applyTotals_items] at hi
    rcases List.mem_filter.1 hi with ⟨hm, _⟩
    rcases List.mem_map.1 hm with ⟨j, hj, rfl⟩
    by_cases hid : (j.id == id) = true
    · rw [if_pos hid]; exact rfl
    · rw [if_neg hid]; exact ih j hj
  | updateItemDiscount id p q =>
    intro i hi
    rw [cartReducer, applyTotals_items] at hi
    rcases List.mem_map.1 hi with ⟨j, hj, rfl⟩
    by_cases hid : (j.id == id) = true
    · rw [if_pos hid]; exact rfl
    · rw [if_neg hid]; exact ih j hj
  | updateTransactionDiscount p q => exact ih
  | removeItem id =>
    intro i hi
    rw [cartReducer, applyTotals_items] at hi
    exact ih i (List.mem_filter.1 hi).1
  | clearCart =>
    intro i hi
    simp [cartReducer, initialCart] at hi

lemma reachable_line_subtotals {c : CartState} (h : Reachable c) :
    ∀ i ∈ c.items, i.subtotal = calculateItemSubtotal i := by
  induction h with
  | base => intro i hi; simp [initialCart] at hi
  | step a hr ih => exact items_step_subtotal _ a ih

lemma reachable_gross_sync {c : CartState} (h : Reachable c) :
    c.subtotalBeforeDiscount = grossSubtotalOf c.items ∧
    c.totalItemDiscounts = lineDiscountTotalOf c.items := by
  induction h with
  | base =>
    exact ⟨by simp [initialCart, grossSubtotalOf], by simp [initialCart, lineDiscountTotalOf]⟩
  | @step c' a hr ih =>
    by_cases hc : a = Action.clearCart
    · subst hc
      exact ⟨by simp [cartReducer, initialCart, grossSubtotalOf],
             by simp [cartReducer, initialCart, lineDiscountTotalOf]⟩
    · have hs := totalsSync_step c' a hc
      exact ⟨hs.1.trans (calcTotals_subtotalBeforeDiscount _ _ _),
             hs.2.1.trans (calcTotals_totalItemDiscounts _ _ _)⟩

/-- C3: for every line of every reachable cart, the stored line subtotal
equals `max(0, quantity*unitPrice - (quantity*unitPrice*(pct/100) + amount))`
and is therefore non-negative; the cart-level line-discount total sums the
unclamped per-line discount values. -/
theorem line_subtotals_clamped_and_total_unclamped (c : CartState) (h : Reachable c) :
    (∀ i ∈ c.items,
        i.subtotal = max 0 ((i.quantity : ℚ) * i.unit_price -
          ((i.quantity : ℚ) * i.unit_price * (i.discount_percentage / 100)
            + i.discount_amount)) ∧
        0 ≤ i.subtotal) ∧
    c.totalItemDiscounts = (c.items.map lineDiscount).sum := by
  refine ⟨?_, (reachable_gross_sync h).2⟩
  intro i hi
  have hs := reachable_line_subtotals h i hi
  refine ⟨by rw [hs]; rfl, ?_⟩
  rw [hs]
  exact le_max_left 0 _

/-- Witness for C3 at a concrete reachable one-line cart. -/
theorem line_subtotals_clamped_witness :
    Reachable sampleCart ∧
    ((∀ i ∈ sampleCart.items,
        i.subtotal = max 0 ((i.quantity : ℚ) * i.unit_price -
          ((i.quantity : ℚ) * i.unit_price * (i.discount_percentage / 100)
            + i.discount_amount)) ∧
        0 ≤ i.subtotal) ∧
     sampleCart.totalItemDiscounts = (sampleCart.items.map lineDiscount).sum) :=
  ⟨Reachable.step (Action.addItem sampleProduct) Reachable.base,
   line_subtotals_clamped_and_total_unclamped sampleCart
     (Reachable.step (Action.addItem sampleProduct) Reachable.base)⟩

/-! AddItem. -/

lemma filter_length_map_of_pred_preserved (f : CartItem → CartItem) (q : CartItem → Bool)
    (hf : ∀ i, q (f i) = q i) (l : List CartItem) :
    ((l.map f).filter q).length = (l.filter q).length := by
  induction l with
  | nil => rfl
  | cons x xs ih =>
    simp only [List.map_cons, List.filter_cons, hf]
    cases q x <;> simp [ih]

/-- C5: AddItem on an existing productId increases that line's quantity by
the given amount and recomputes its subtotal, never creates a duplicate line
(line count and matching-id count unchanged); on an absent productId it
appends a new line with zero discounts and the given quantity; in both cases
all cart totals are recomputed. -/
theorem addItem_spec (c : CartState) (p : ProductPayload) (hq : 0 < p.quantity) :
    ((∃ i ∈ c.items, i.id = p.id) →
      (cartReducer c (Action.addItem p)).items.length = c.items.length ∧
      ((cartReducer c (Action.addItem p)).items.filter (fun i => i.id == p.id)).length
        = (c.items.filter (fun i => i.id == p.id)).length ∧
      (∀ i ∈ c.items, i.id = p.id →
        ({ i with
            quantity := i.quantity + p.quantity,
            subtotal := calculateItemSubtotal
              { i with quantity := i.quantity + p.quantity } } : CartItem)
          ∈ (cartReducer c (Action.addItem p)).items)) ∧
    ((∀ i ∈ c.items, i.id ≠ p.id) →
      (cartReducer c (Action.addItem p)).items
        = c.items ++ [{ id := p.id, sku := p.sku, name := p.name,
                        unit_price := p.unit_price, quantity := p.quantity,
                        discount_percentage := 0, discount_amount := 0,
                        subtotal := calculateItemSubtotal (payloadItem p) }]) ∧
    TotalsInSync (cartReducer c (Action.addItem p)) := by
  refine ⟨?_, ?_, totalsSync_step c _ (fun hx => Action.noConfusion hx)⟩
  · rintro ⟨j, hj, hjid⟩
    have hany : (c.items.any fun item => item.id == p.id) = true :=
      List.any_eq_true.2 ⟨j, hj, by simp [hjid]⟩
    simp only [cartReducer, if_pos hany, applyTotals_items]
    refine ⟨List.length_map _ _, ?_, ?_⟩
    · apply filter_length_map_of_pred_preserved
      intro i
      by_cases hid : (i.id == p.id) = true
      · rw [if_pos hid]
      · rw [if_neg hid]
    · intro i hi hid
      refine List.mem_map.2 ⟨i, hi, ?_⟩
      rw [if_pos (by simp [hid])]
  · intro hno
    have hany : ¬ ((c.items.any fun item => item.id == p.id) = true) := by
      simp only [List.any_eq_true]
      rintro ⟨j, hj, hjid⟩
      exact hno j hj (by simpa using hjid)
    simp only [cartReducer, if_neg hany, applyTotals_items]
    rfl

/-- Witness for C5: scanning `sampleProduct` a second time bumps the
existing line. -/
theorem addItem_spec_witness :
    0 < sampleProduct.quantity ∧
    (∃ i ∈ sampleCart.items, i.id = sampleProduct.id) ∧
    ((cartReducer sampleCart (Action.addItem sampleProduct)).items.length
        = sampleCart.items.length ∧
      ((cartReducer sampleCart (Action.addItem sampleProduct)).items.filter
          (fun i => i.id == sampleProduct.id)).length
        = (sampleCart.items.filter (fun i => i.id == sampleProduct.id)).length ∧
      (∀ i ∈ sampleCart.items, i.id = sampleProduct.id →
        ({ i with
            quantity := i.quantity + sampleProduct.quantity,
            subtotal := calculateItemSubtotal
              { i with quantity := i.quantity + sampleProduct.quantity } } : CartItem)
          ∈ (cartReducer sampleCart (Action.addItem sampleProduct)).items)) :=
  ⟨by decide, by decide,
   (addItem_spec sampleCart sampleProduct (by decide)).1 (by decide)⟩

/-! SetQuantity. -/

lemma applyTotals_eq_self (c : CartState) (hsync : TotalsInSync c) :
    applyTotals c c.items
      (calculateTotals c.items c.transactionDiscountPercentage
        c.transactionDiscountAmount) = c := by
  obtain ⟨s1, s2, s3, s4, s5⟩ := hsync
  rw [applyTotals, ← s1, ← s2, ← s3, ← s4, ← s5]

lemma filter_pos_map_setQuantity (id : Nat) (q : Int) (hq : q ≤ 0) (l : List CartItem)
    (hpos : ∀ i ∈ l, 0 < i.quantity) :
    ((l.map (fun item =>
        if item.id == id then
          { item with
            quantity := q,
            subtotal := calculateItemSubtotal { item with quantity := q } }
        else item)).filter (fun item => decide (0 < item.quantity)))
      = l.filter (fun i => i.id != id) := by
  induction l with
  | nil => rfl
  | cons x xs ih =>
    have hx := hpos x (List.mem_cons_self x xs)
    have ihx := ih (fun i hi => hpos i (List.mem_cons_of_mem x hi))
    simp only [List.map_cons, List.filter_cons]
    by_cases hid : (x.id == id) = true
    · rw [if_pos hid]
      have hdrop : decide (0 < ({ x with
          quantity := q,
          subtotal := calculateItemSubtotal { x with quantity := q } } : CartItem).quantity)
          = false := by
        simp only [decide_eq_false_iff_not]
        omega
      have hbne : (x.id != id) = false := by simp [bne, hid]
      rw [hdrop, hbne]
      simpa using ihx
    · rw [if_neg hid]
      have hkeep : decide (0 < x.quantity) = true := by simpa using hx
      have hbne : (x.id != id) = true := by simp [bne]; simpa using hid
      rw [hkeep, hbne]
      simpa using ihx

/-- C6 counterexample: on the (reachable) initial cart, SetQuantity with an
unknown productId is not a value-level no-op — the recompute raises the
stored `netSubtotal` from 0 to 0.01. -/
theorem setQuantity_unknown_id_not_noop :
    Reachable initialCart ∧
    (∀ i ∈ initialCart.items, i.id ≠ 1) ∧
    cartReducer initialCart (Action.updateQuantity 1 5) ≠ initialCart :=
  ⟨Reachable.base, by simp [initialCart], by
    intro h
    have h2 := congrArg CartState.subtotal h
    simp [cartReducer, initialCart, applyTotals, calculateTotals] at h2⟩

/-- C6 (amended): for a cart whose lines all have positive quantity,
SetQuantity removes the line when the given quantity is ≤ 0, sets the
quantity and recomputes the line subtotal when it is positive, leaves the
lines unchanged on an unknown productId — returning a cart equal to the
input whenever the input's stored totals are in sync with the recompute —
and recomputes all cart totals in every case. -/
theorem setQuantity_spec (c : CartState) (id : Nat) (q : Int)
    (hpos : ∀ i ∈ c.items, 0 < i.quantity) :
    ((∀ i ∈ c.items, i.id ≠ id) → TotalsInSync c →
        cartReducer c (Action.updateQuantity id q) = c) ∧
    (q ≤ 0 →
        (cartReducer c (Action.updateQuantity id q)).items
          = c.items.filter (fun i => i.id != id)) ∧
    (0 < q →
        (cartReducer c (Action.updateQuantity id q)).items
          = c.items.map (fun i =>
              if i.id == id then
                { i with
                  quantity := q,
                  subtotal := calculateItemSubtotal { i with quantity := q } }
              else i)) ∧
    TotalsInSync (cartReducer c (Action.updateQuantity id q)) := by
  refine ⟨?_, ?_, ?_, totalsSync_step c _ (fun hx => Action.noConfusion hx)⟩
  · intro hno hsync
    have hmap : c.items.map (fun item =>
        if item.id == id then
          { item with
            quantity := q,
            subtotal := calculateItemSubtotal { item with quantity := q } }
        else item) = c.items := by
      have hpt : ∀ i ∈ c.items, (if i.id == id then
          ({ i with
             quantity := q,
             subtotal := calculateItemSubtotal { i with quantity := q } } : CartItem)
        else i) = i := by
        intro i hi
        rw [if_neg (by simpa using hno i hi)]
      calc c.items.map _ = c.items.map (fun i => i) := List.map_congr_left hpt
        _ = c.items := List.map_id' c.items
    have hfil : c.items.filter (fun item => decide (0 < item.quantity)) = c.items :=
      List.filter_eq_self.2 (fun i hi => by simpa using hpos i hi)
    show applyTotals c _ _ = c
    rw [hmap, hfil]
    exact applyTotals_eq_self c hsync
  · intro hq
    show (applyTotals c _ _).items = _
    rw [applyTotals_items]
    exact filter_pos_map_setQuantity id q hq c.items hpos
  · intro hq
    show (applyTotals c _ _).items = _
    rw [applyTotals_items]
    apply List.filter_eq_self.2
    intro i hi
    rcases List.mem_map.1 hi with ⟨j, hj, rfl⟩
    by_cases hid : (j.id == id) = true
    · rw [if_pos hid]
      simpa using hq
    · rw [if_neg hid]
      simpa using hpos j hj

/-- Witness for the amended C6: SetQuantity to 0 removes the sample line. -/
theorem setQuantity_spec_witness :
    (∀ i ∈ sampleCart.items, 0 < i.quantity) ∧
    ((0 : Int) ≤ 0) ∧
    (cartReducer sampleCart (Action.updateQuantity 1 0)).items
      = sampleCart.items.filter (fun i => i.id != 1) :=
  ⟨by decide, by decide,
   (setQuantity_spec sampleCart 1 0 (by decide)).2.1 (by decide)⟩

/-! SetLineDiscount. -/

/-- C7: SetLineDiscount overwrites rather than accumulates — applying it
twice to the same productId with any two discount pairs yields the same cart
as applying only the second call to the original cart (for every cart and
every productId, present or not). -/
theorem setLineDiscount_overwrites (c : CartState) (id : Nat) (p1 a1 p2 a2 : ℚ) :
    cartReducer (cartReducer c (Action.updateItemDiscount id p1 a1))
        (Action.updateItemDiscount id p2 a2)
      = cartReducer c (Action.updateItemDiscount id p2 a2) := by
  have hmap : ((c.items.map (fun item =>
      if item.id == id then
        { item with
          discount_percentage := p1,
          discount_amount := a1,
          subtotal := calculateItemSubtotal
            { item with discount_percentage := p1, discount_amount := a1 } }
      else item)).map (fun item =>
      if item.id == id then
        { item with
          discount_percentage := p2,
          discount_amount := a2,
          subtotal := calculateItemSubtotal
            { item with discount_percentage := p2, discount_amount := a2 } }
      else item))
      = c.items.map (fun item =>
      if item.id == id then
        { item with
          discount_percentage := p2,
          discount_amount := a2,
          subtotal := calculateItemSubtotal
            { item with discount_percentage := p2, discount_amount := a2 } }
      else item) := by
    rw [List.map_map]
    apply List.map_congr_left
    intro i _
    simp only [Function.comp_apply]
    by_cases hid : (i.id == id) = true
    · simp [hid, calculateItemSubtotal]
    · simp [hid]
  simp only [cartReducer, applyTotals_items, applyTotals_pct, applyTotals_amt]
  rw [hmap]
  rfl

/-! RemoveItem. -/

/-- C8 counterexample: on the (reachable) initial cart, RemoveItem with a
non-existent productId does not return a cart equal to the input by value —
the recompute raises the stored `netSubtotal` from 0 to 0.01. -/
theorem removeItem_unknown_id_not_noop :
    Reachable initialCart ∧
    (∀ i ∈ initialCart.items, i.id ≠ 1) ∧
    cartReducer initialCart (Action.removeItem 1) ≠ initialCart :=
  ⟨Reachable.base, by simp [initialCart], by
    intro h
    have h2 := congrArg CartState.subtotal h
    simp [cartReducer, initialCart, applyTotals, calculateTotals] at h2⟩

/-- C8 (amended): RemoveItem deletes exactly the lines with the given
productId and recomputes all totals; with a non-existent productId it leaves
the lines unchanged and returns a cart equal to the input by value whenever
the input's stored totals are in sync with the recompute. -/
theorem removeItem_spec (c : CartState) (id : Nat) :
    ((∀ i ∈ c.items, i.id ≠ id) → TotalsInSync c →
        cartReducer c (Action.removeItem id) = c) ∧
    (cartReducer c (Action.removeItem id)).items
      = c.items.filter (fun i => i.id != id) ∧
    TotalsInSync (cartReducer c (Action.removeItem id)) := by
  refine ⟨?_, rfl, totalsSync_step c _ (fun hx => Action.noConfusion hx)⟩
  intro hno hsync
  have hfil : c.items.filter (fun i => i.id != id) = c.items :=
    List.filter_eq_self.2 (fun i hi => by
      simp only [bne_iff_ne, ne_eq, decide_eq_true_eq]
      exact hno i hi)
  show applyTotals c _ _ = c
  rw [hfil]
  exact applyTotals_eq_self c hsync

/-- Witness for the amended C8: RemoveItem with an absent id on the
in-sync sample cart returns it unchanged. -/
theorem removeItem_spec_witness :
    (∀ i ∈ sampleCart.items, i.id ≠ 2) ∧
    TotalsInSync sampleCart ∧
    cartReducer sampleCart (Action.removeItem 2) = sampleCart := by
  have hno : ∀ i ∈ sampleCart.items, i.id ≠ 2 := by decide
  have hsync : TotalsInSync sampleCart :=
    totalsSync_step initialCart (Action.addItem sampleProduct)
      (fun hx => Action.noConfusion hx)
  exact ⟨hno, hsync, (removeItem_spec sampleCart 2).1 hno hsync⟩

/-! The transaction payload of `createTransaction`. -/

lemma round2_den (x : ℚ) : (round2 x * 100).den = 1 := by
  rw [round2, div_mul_cancel₀]
  · exact Rat.den_intCast _
  · norm_num

/-- C9 counterexample: a half-cent (0.005) discount amount reaches the
payload unchanged, both per item and at transaction level, even though it is
not a 2-decimal value and rounding it to 2 decimals would change it. -/
theorem createTransaction_discount_amount_not_rounded :
    (createTransactionPayload [halfCentItem] "Cash" (some 10) (some 0) 0 (1/200)).discount_amount
      = some (1/200) ∧
    (buildItemPayload halfCentItem).discount_amount = some (1/200) ∧
    ((1/200 : ℚ) * 100).den ≠ 1 ∧
    round2 (1/200) ≠ 1/200 := by
  refine ⟨by norm_num [createTransactionPayload], ?_, by norm_num, by norm_num [round2]⟩
  norm_num [buildItemPayload, halfCentItem]

/-- C9 (amended): the payload built by `createTransaction` carries, per item
and at transaction level, the discount keys exactly when the value is
strictly positive (with the exact, unrounded value), and for cash payments
`cash_received` and `change_amount` are rounded to 2 decimal places before
transmission; the discount values themselves are not rounded. -/
theorem createTransaction_keys_iff_positive_and_cash_rounded
    (items : List CartItem) (pm : String) (cr ca : Option ℚ) (dp da : ℚ) :
    (createTransactionPayload items pm cr ca dp da).items = items.map buildItemPayload ∧
    (∀ i ∈ items,
        ((buildItemPayload i).discount_percentage.isSome ↔ 0 < i.discount_percentage) ∧
        ((buildItemPayload i).discount_amount.isSome ↔ 0 < i.discount_amount) ∧
        (0 < i.discount_percentage →
          (buildItemPayload i).discount_percentage = some i.discount_percentage) ∧
        (0 < i.discount_amount →
          (buildItemPayload i).discount_amount = some i.discount_amount)) ∧
    ((createTransactionPayload items pm cr ca dp da).discount_percentage.isSome ↔ 0 < dp) ∧
    ((createTransactionPayload items pm cr ca dp da).discount_amount.isSome ↔ 0 < da) ∧
    (0 < da → (createTransactionPayload items pm cr ca dp da).discount_amount = some da) ∧
    (∀ x : ℚ, pm = "Cash" → cr = some x →
        (createTransactionPayload items pm cr ca dp da).cash_received = some (round2 x) ∧
        (round2 x * 100).den = 1) ∧
    (∀ x y : ℚ, pm = "Cash" → cr = some x → ca = some y →
        (createTransactionPayload items pm cr ca dp da).change_amount = some (round2 y) ∧
        (round2 y * 100).den = 1) := by
  refine ⟨rfl, ?_, ?_, ?_, ?_, ?_, ?_⟩
  · intro i _
    refine ⟨?_, ?_, ?_, ?_⟩
    · by_cases h : 0 < i.discount_percentage <;> simp [buildItemPayload, h]
    · by_cases h : 0 < i.discount_amount <;> simp [buildItemPayload, h]
    · intro h; simp [buildItemPayload, h]
    · intro h; simp [buildItemPayload, h]
  · by_cases h : 0 < dp <;> simp [createTransactionPayload, h]
  · by_cases h : 0 < da <;> simp [createTransactionPayload, h]
  · intro h; simp [createTransactionPayload, h]
  · intro x hpm hcr
    refine ⟨?_, round2_den x⟩
    simp [createTransactionPayload, hpm, hcr]
  · intro x y hpm hcr hca
    refine ⟨?_, round2_den y⟩
    simp [createTransactionPayload, hpm, hcr, hca]

/-- Witness for the amended C9 at a concrete cash payment. -/
theorem createTransaction_keys_witness :
    ((createTransactionPayload [halfCentItem] "Cash" (some (21/2)) (some (1/4)) 5 2).cash_received
        = some (round2 (21/2)) ∧ (round2 (21/2) * 100).den = 1) ∧
    ((createTransactionPayload [halfCentItem] "Cash" (some (21/2)) (some (1/4)) 5 2).change_amount
        = some (round2 (1/4)) ∧ (round2 (1/4) * 100).den = 1) ∧
    (0 < (2 : ℚ)) ∧
    (createTransactionPayload [halfCentItem] "Cash" (some (21/2)) (some (1/4)) 5 2).discount_amount
      = some 2 :=
  ⟨(createTransaction_keys_iff_positive_and_cash_rounded
      [halfCentItem] "Cash" (some (21/2)) (some (1/4)) 5 2).2.2.2.2.2.1 (21/2) rfl rfl,
   (createTransaction_keys_iff_positive_and_cash_rounded
      [halfCentItem] "Cash" (some (21/2)) (some (1/4)) 5 2).2.2.2.2.2.2 (21/2) (1/4) rfl rfl rfl,
   by norm_num,
   (createTransaction_keys_iff_positive_and_cash_rounded
      [halfCentItem] "Cash" (some (21/2)) (some (1/4)) 5 2).2.2.2.2.1 (by norm_num)⟩

/-! Sum of stored line subtotals versus the cart-level discount sums. -/

lemma sum_map_sub (f g : CartItem → ℚ) (l : List CartItem) :
    (l.map fun i => f i - g i).sum = (l.map f).sum - (l.map g).sum := by
  induction l with
  | nil => simp
  | cons x xs ih =>
    simp only [List.map_cons, List.sum_cons, ih]
    ring

/-- C10: on every reachable cart whose per-line discounts do not exceed their
gross, the sum of the stored line subtotals equals the stored
`grossSubtotal - lineDiscountTotal` (the subtotal the engine uses for the
cart-level net); and on a reachable cart with a line whose discount exceeds
its gross, the per-line clamp makes that sum strictly exceed it. -/
theorem sum_line_subtotals_vs_net_base :
    (∀ c : CartState, Reachable c →
      (∀ i ∈ c.items, lineDiscount i ≤ lineGross i) →
      (c.items.map (fun i => i.subtotal)).sum
        = c.subtotalBeforeDiscount - c.totalItemDiscounts) ∧
    (Reachable overCart ∧
      (∃ i ∈ overCart.items, lineGross i < lineDiscount i) ∧
      overCart.subtotalBeforeDiscount - overCart.totalItemDiscounts
        < (overCart.items.map (fun i => i.subtotal)).sum) := by
  constructor
  · intro c h hle
    obtain ⟨hg, hd⟩ := reachable_gross_sync h
    have hsub := reachable_line_subtotals h
    calc (c.items.map fun i => i.subtotal).sum
        = (c.items.map fun i => lineGross i - lineDiscount i).sum := by
          apply congrArg
          apply List.map_congr_left
          intro i hi
          rw [hsub i hi]
          exact max_eq_right (sub_nonneg.2 (hle i hi))
      _ = grossSubtotalOf c.items - lineDiscountTotalOf c.items :=
          sum_map_sub _ _ c.items
      _ = c.subtotalBeforeDiscount - c.totalItemDiscounts := by rw [hg, hd]
  · refine ⟨Reachable.step _ (Reachable.step _ Reachable.base), ?_, ?_⟩
    · norm_num [overCart, sampleCart, sampleProduct, cartReducer, initialCart, applyTotals,
        payloadItem, calculateItemSubtotal, calculateTotals, lineGross, lineDiscount]
    · norm_num [overCart, sampleCart, sampleProduct, cartReducer, initialCart, applyTotals,
        payloadItem, calculateItemSubtotal, calculateTotals, max_def]

/-- Witness for C10's universally quantified part at the sample cart, whose
single line has no discount. -/
theorem sum_line_subtotals_witness :
    Reachable sampleCart ∧
    (∀ i ∈ sampleCart.items, lineDiscount i ≤ lineGross i) ∧
    (sampleCart.items.map (fun i => i.subtotal)).sum
      = sampleCart.subtotalBeforeDiscount - sampleCart.totalItemDiscounts := by
  have hr : Reachable sampleCart := Reachable.step (Action.addItem sampleProduct) Reachable.base
  have hle : ∀ i ∈ sampleCart.items, lineDiscount i ≤ lineGross i := by
    norm_num [sampleCart, sampleProduct, cartReducer, initialCart, applyTotals,
      payloadItem, calculateItemSubtotal, lineGross, lineDiscount]
  exact ⟨hr, hle, sum_line_subtotals_vs_net_base.1 sampleCart hr hle⟩

end WebPOS
